import Mathlib

/-!
Verification of the container-inventory generator (src/automate_script.py).

The script is embedded shallowly:
* Python strings are Lean `String`s; Python string methods (`lstrip`,
  `strip`, `splitlines`, slicing, `startswith`, `int(...)`) are modelled by
  executable Lean functions over the underlying character lists.
* The external runtime boundary (subprocess calls) is modelled by its
  captured observable data: `podman ps -q` becomes a pair
  (returncode, stdout), and `podman inspect` becomes a function from a
  container id to an optional parsed metadata document (`none` covers a
  failed inspect as well as an empty or falsy result, both of which the
  script skips identically).
* A Python exception (the only reachable one is `int()` on a non-numeric
  string) is modelled by `Option`: `none` means the run raised.
* The filesystem side effects are modelled by a `RunOutput` record listing
  exactly which files the run would write and with what content.
* `random.choice(environments)` is modelled by an arbitrary index stream
  `rnd : Nat → Nat` taken modulo 3; theorems quantify over all streams.
-/

/-- Python truthiness of a whitespace test character set used by `str.strip()`. -/
def isPySpace (c : Char) : Bool :=
  c = ' ' || c = '\t' || c = '\n' || c = '\r' || c = '\x0b' || c = '\x0c'

/-- Model of Python `s.strip()` (no arguments: strips ASCII whitespace at both ends). -/
def pyStrip (s : String) : String :=
  ⟨((s.data.dropWhile isPySpace).reverse.dropWhile isPySpace).reverse⟩

/-- Split a character list at newlines; `acc` holds the current segment reversed. -/
def splitLinesAux : List Char → List Char → List String
  | [], acc => [⟨acc.reverse⟩]
  | c :: rest, acc =>
    if c = '\n' then ⟨acc.reverse⟩ :: splitLinesAux rest []
    else splitLinesAux rest (c :: acc)

/-- Model of Python `s.splitlines()` restricted to newline separators, which is
what the stripped stdout of the runtime can contain. -/
def pySplitlines (s : String) : List String :=
  if s.data = [] then [] else splitLinesAux s.data []

/-- Model of Python `s.lstrip("/")`: removes every leading slash character. -/
def pyLstripSlash (s : String) : String :=
  ⟨s.data.dropWhile (fun c => c = '/')⟩

/-- Model of Python slicing `s[:12]`. -/
def pySlice12 (s : String) : String :=
  ⟨s.data.take 12⟩

def pyStartsWithAux : List Char → List Char → Bool
  | [], _ => true
  | _ :: _, [] => false
  | p :: ps, c :: cs => p = c && pyStartsWithAux ps cs

/-- Model of Python `s.startswith(p)`. -/
def pyStartsWith (s p : String) : Bool :=
  pyStartsWithAux p.data s.data

def charVal (c : Char) : Nat := c.toNat - 48

/-- Digit accumulator for `pyInt`: consumes decimal digits, allowing a single
underscore between digits as Python `int()` does. -/
def digitsCore : Nat → List Char → Option Nat
  | acc, [] => some acc
  | acc, c :: cs =>
    if c.isDigit then digitsCore (10 * acc + charVal c) cs
    else if c = '_' then
      match cs with
      | d :: _ => if d.isDigit then digitsCore acc cs else none
      | [] => none
    else none

def pyDigits : List Char → Option Nat
  | [] => none
  | c :: cs => if c.isDigit then digitsCore (charVal c) cs else none

/-- Model of Python `int(s)` on a string: optional surrounding whitespace, an
optional single sign, then a non-empty digit run (underscores allowed between
digits). `none` models the `ValueError` that `int()` raises otherwise. -/
def pyInt (s : String) : Option Int :=
  match (pyStrip s).data with
  | '+' :: cs => (pyDigits cs).map (fun n => (n : Int))
  | '-' :: cs => (pyDigits cs).map (fun n => -(n : Int))
  | cs => (pyDigits cs).map (fun n => (n : Int))

/-! ## Raw runtime metadata (the parsed `podman inspect` document) -/

/-- One entry of a port-mapping list; `HostPort` may be absent. -/
structure PortMapping where
  hostPort : Option String
deriving DecidableEq

/-- The `NetworkSettings` object: an optional `IPAddress` and a `Ports` table.
The table is an association list in the document's (deterministic) iteration
order; a key's value may be `None` (no published mapping) or a list. -/
structure NetworkSettings where
  ipAddress : Option String
  ports : List (String × Option (List PortMapping))
deriving DecidableEq

/-- A parsed inspect document: an optional `Name` and optional `NetworkSettings`. -/
structure ContainerData where
  name : Option String
  networkSettings : Option NetworkSettings
deriving DecidableEq

def defaultNet : NetworkSettings := ⟨none, []⟩

/-- Python truthiness of the `mappings` value in the port scan:
true exactly when it is a non-`None`, non-empty list. -/
def mappingsTruthy : Option (List PortMapping) → Bool
  | some (_ :: _) => true
  | _ => false

/-- `mappings[0].get("HostPort")` for a truthy mappings value (and `none` otherwise). -/
def firstHostPort : Option (List PortMapping) → Option String
  | some (m :: _) => m.hostPort
  | _ => none

/-- The loop condition of the port scan on one table entry
(`port_proto.startswith("22") and mappings`). -/
def scanHit (p : String × Option (List PortMapping)) : Bool :=
  pyStartsWith p.1 "22" && mappingsTruthy p.2

/-- The port-scan loop of `extract_container_info` (lines 39–44): walk the
ports table, and at the first key that starts with `"22"` and has a truthy
mappings list, take `mappings[0].get("HostPort")` and stop. -/
def findSshPort : List (String × Option (List PortMapping)) → Option String
  | [] => none
  | (k, ms) :: rest =>
    if pyStartsWith k "22" && mappingsTruthy ms then firstHostPort ms
    else findSshPort rest

/-- Embedding of `extract_container_info` (lines 28–45): returns
(container_name, container_ip, ssh_port). -/
def extract_container_info (d : ContainerData) : String × String × Option String :=
  let container_name := pyLstripSlash (d.name.getD "")
  let net := d.networkSettings.getD defaultNet
  let container_ip := net.ipAddress.getD ""
  let ssh_port := findSshPort net.ports
  (container_name, container_ip, ssh_port)

/-! ## The per-container record construction inside `generate_inventory` -/

/-- Line 64–65: `if not name: name = cid[:12]`. -/
def resolveName (cid name : String) : String :=
  if name = "" then pySlice12 cid else name

/-- Line 66: `ansible_host = ip if ip else "localhost"`. -/
def resolveHost (ip : String) : String :=
  if ip = "" then "localhost" else ip

/-- Python truthiness of the optional ssh_port value (`if port`). -/
def portTruthy : Option String → Bool
  | some t => t ≠ ""
  | none => false

/-- Line 69: `int(port) if port else 22`. `none` models the `ValueError`
raised by `int()` on a truthy non-numeric string. -/
def resolvePort (port : Option String) : Option Int :=
  if portTruthy port then pyInt (port.getD "") else some 22

/-- The host_vars dictionary written for one container (lines 67–72). -/
structure HostVars where
  ansible_host : String
  ansible_port : Int
  container_id : String
  container_name : String
deriving DecidableEq

/-- Build the (name, host_vars) pair for one inspected container
(lines 63–72); `none` models the run aborting on a `ValueError` from `int()`. -/
def buildHostVars (cid : String) (d : ContainerData) : Option (String × HostVars) :=
  let info := extract_container_info d
  let name := resolveName cid info.1
  let host := resolveHost info.2.1
  (resolvePort info.2.2).map (fun p => (name, ⟨host, p, cid, name⟩))

/-- The discovery loop of `generate_inventory` (lines 58–82): inspect each id,
skip falsy inspect results, build each surviving record. `none` models the run
aborting on a raised exception mid-loop. -/
def processContainers (inspect : String → Option ContainerData) :
    List String → Option (List (String × HostVars))
  | [] => some []
  | cid :: rest =>
    match inspect cid with
    | none => processContainers inspect rest
    | some d =>
      match buildHostVars cid d with
      | none => none
      | some hv => (processContainers inspect rest).map (fun l => hv :: l)

/-! ## Group assignment (lines 84–105) -/

/-- Line 9: the declared groups in priority order. -/
def environments : List String := ["dev", "staging", "production"]

/-- Line 85: `assigned = {env: set() for env in environments}`, modelled as a
total function so that each declared group starts empty. -/
def emptyAssign : String → Finset String := fun _ => ∅

/-- `assigned[env].add(host)`. -/
def addTo (a : String → Finset String) (env host e : String) : Finset String :=
  if e = env then insert host (a env) else a e

/-- One outcome of `random.choice(environments)`: an arbitrary index reduced
modulo the number of groups. -/
def envChoice (n : Nat) : String :=
  environments.getD (n % 3) "dev"

/-- Lines 92–95: assign each remaining container to a randomly chosen group,
the choice stream being `rnd` read at successive positions. -/
def addRandom (a : String → Finset String) (rnd : Nat → Nat) :
    List String → Nat → String → Finset String
  | [], _ => a
  | h :: t, i => addRandom (addTo a (envChoice (rnd i)) h) rnd t (i + 1)

/-- The group-assignment block of `generate_inventory` (lines 84–105), as a
function of the discovered record names in discovery order. -/
def buildAssignment (names : List String) (rnd : Nat → Nat) : String → Finset String :=
  match names with
  | n0 :: n1 :: n2 :: rest =>
    addRandom (addTo (addTo (addTo emptyAssign "dev" n0) "staging" n1) "production" n2)
      rnd rest 0
  | [n0, n1] =>
    addTo (addTo (addTo emptyAssign "dev" n0) "staging" n1) "production" n0
  | [n0] =>
    addTo (addTo (addTo emptyAssign "dev" n0) "staging" n0) "production" n0
  | [] => emptyAssign

/-! ## The whole run -/

/-- Embedding of `get_container_ids` (lines 11–17) over the captured
(returncode, stdout) of `podman ps -q`. -/
def get_container_ids (ps : Int × String) : List String :=
  if ps.1 ≠ 0 then [] else pySplitlines (pyStrip ps.2)

/-- Observable outcome of one run: whether the no-containers message was
printed, the host_vars files written (name and content, in write order), the
group_vars files written, and the static inventory content when written
(each declared group with its member set, in `environments` order). -/
structure RunOutput where
  noContainersMsg : Bool
  hostVarsFiles : List (String × HostVars)
  groupVarsWritten : List String
  inventory : Option (List (String × Finset String))
deriving DecidableEq

/-- The tail of `generate_inventory` once container ids were discovered
(lines 58–170): build records, write host_vars, assign groups, write the
three group_vars files and the static inventory. -/
def runWithIds (ids : List String) (inspect : String → Option ContainerData)
    (rnd : Nat → Nat) : Option RunOutput :=
  match processContainers inspect ids with
  | none => none
  | some infos =>
    some ⟨false, infos, environments,
      some (environments.map
        (fun e => (e, buildAssignment (infos.map (fun p => p.1)) rnd e)))⟩

/-- Embedding of `generate_inventory` (lines 47–170). `none` models the run
raising; `some` models a successful exit with the recorded observable output. -/
def generate_inventory (ps : Int × String) (inspect : String → Option ContainerData)
    (rnd : Nat → Nat) : Option RunOutput :=
  if get_container_ids ps = [] then some ⟨true, [], [], none⟩
  else runWithIds (get_container_ids ps) inspect rnd

example : pyInt "2222" = some 2222 := by decide
example : pyInt "abc" = none := by decide
example : pyInt " -4_2 " = some (-42) := by decide
example : pyLstripSlash "//my-app" = "my-app" := by decide
example : pyStartsWith "2222/tcp" "22" = true := by decide
example : get_container_ids (0, "a1\nb2\n") = ["a1", "b2"] := by decide
example : get_container_ids (0, "") = [] := by decide
example : findSshPort [("80/tcp", some [⟨some "8080"⟩]), ("22/tcp", some [⟨some "2222"⟩])]
    = some "2222" := by decide
example : buildAssignment ["x"] (fun _ => 0) "production" = {"x"} := by decide

/-! ## Helper lemmas about the group-assignment operations -/

lemma addTo_mem_self (a : String → Finset String) (env host : String) :
    host ∈ addTo a env host env := by
  simp [addTo]

lemma addTo_mem_mono {a : String → Finset String} {e x : String} (env host : String)
    (h : x ∈ a e) : x ∈ addTo a env host e := by
  unfold addTo
  split
  · rename_i hc; subst hc; exact Finset.mem_insert_of_mem h
  · exact h

lemma addRandom_mem_mono (rnd : Nat → Nat) :
    ∀ (l : List String) (a : String → Finset String) (i : Nat) {e x : String},
      x ∈ a e → x ∈ addRandom a rnd l i e := by
  intro l
  induction l with
  | nil => intro a i e x h; exact h
  | cons hd tl ih =>
    intro a i e x h
    exact ih (addTo a (envChoice (rnd i)) hd) (i + 1) (addTo_mem_mono _ _ h)

/-- Coverage of the assignment block: with a non-empty discovery list, every
declared group receives at least one member, whatever the random stream does. -/
lemma buildAssignment_covered (names : List String) (rnd : Nat → Nat)
    (hne : names ≠ []) :
    ∀ e ∈ environments, (buildAssignment names rnd e).Nonempty := by
  intro e he
  have he3 : e = "dev" ∨ e = "staging" ∨ e = "production" := by
    simpa [environments] using he
  rcases names with _ | ⟨n0, _ | ⟨n1, _ | ⟨n2, t⟩⟩⟩
  · exact absurd rfl hne
  · rcases he3 with rfl | rfl | rfl
    · exact ⟨n0, addTo_mem_mono _ _ (addTo_mem_mono _ _ (addTo_mem_self _ _ _))⟩
    · exact ⟨n0, addTo_mem_mono _ _ (addTo_mem_self _ _ _)⟩
    · exact ⟨n0, addTo_mem_self _ _ _⟩
  · rcases he3 with rfl | rfl | rfl
    · exact ⟨n0, addTo_mem_mono _ _ (addTo_mem_mono _ _ (addTo_mem_self _ _ _))⟩
    · exact ⟨n1, addTo_mem_mono _ _ (addTo_mem_self _ _ _)⟩
    · exact ⟨n0, addTo_mem_self _ _ _⟩
  · rcases he3 with rfl | rfl | rfl
    · exact ⟨n0, addRandom_mem_mono rnd t _ 0
        (addTo_mem_mono _ _ (addTo_mem_mono _ _ (addTo_mem_self _ _ _)))⟩
    · exact ⟨n1, addRandom_mem_mono rnd t _ 0
        (addTo_mem_mono _ _ (addTo_mem_self _ _ _))⟩
    · exact ⟨n2, addRandom_mem_mono rnd t _ 0 (addTo_mem_self _ _ _)⟩

lemma processContainers_all_none (inspect : String → Option ContainerData) :
    ∀ ids : List String, (∀ cid ∈ ids, inspect cid = none) →
      processContainers inspect ids = some [] := by
  intro ids
  induction ids with
  | nil => intro _; rfl
  | cons c t ih =>
    intro h
    have hc : inspect c = none := h c (List.mem_cons_self c t)
    have hstep : processContainers inspect (c :: t) = processContainers inspect t := by
      simp only [processContainers, hc]
    rw [hstep]
    exact ih (fun cid hm => h cid (List.mem_cons_of_mem c hm))

/-! ## Claim theorems -/

/-- Claim C5: a non-zero exit status of the list operation is treated as an
empty container set, and with zero discovered identifiers the run prints the
no-containers message, writes no host_vars, group_vars or inventory files, and
terminates successfully (a `some` outcome with the message flag set and no
recorded writes). -/
theorem C5_empty_discovery (rc : Int) (out : String)
    (inspect : String → Option ContainerData) (rnd : Nat → Nat)
    (h : rc ≠ 0 ∨ get_container_ids (rc, out) = []) :
    get_container_ids (rc, out) = [] ∧
      generate_inventory (rc, out) inspect rnd = some ⟨true, [], [], none⟩ := by
  have hids : get_container_ids (rc, out) = [] := by
    rcases h with h | h
    · simp [get_container_ids, h]
    · exact h
  refine ⟨hids, ?_⟩
  unfold generate_inventory
  rw [if_pos hids]

theorem C5_empty_discovery_witness :
    get_container_ids (1, "zzz") = [] ∧
      generate_inventory (1, "zzz") (fun _ => none) (fun _ => 0) =
        some ⟨true, [], [], none⟩ :=
  C5_empty_discovery 1 "zzz" (fun _ => none) (fun _ => 0) (Or.inl (by decide))

/-- Claim C10: when identifiers were listed but every inspect fails (or comes
back empty/falsy), the run does not take the no-containers short-circuit: it
writes all three group_vars files and the inventory artifact, with every
declared group's host set empty, and writes no host_vars files. -/
theorem C10_all_inspect_fail (ps : Int × String)
    (inspect : String → Option ContainerData) (rnd : Nat → Nat)
    (h1 : get_container_ids ps ≠ [])
    (h2 : ∀ cid ∈ get_container_ids ps, inspect cid = none) :
    generate_inventory ps inspect rnd =
      some ⟨false, [], environments,
        some (environments.map (fun e => (e, (∅ : Finset String))))⟩ := by
  unfold generate_inventory
  rw [if_neg h1]
  unfold runWithIds
  rw [processContainers_all_none inspect _ h2]
  rfl

theorem C10_all_inspect_fail_witness :
    generate_inventory (0, "c1") (fun _ => none) (fun _ => 0) =
      some ⟨false, [], environments,
        some (environments.map (fun e => (e, (∅ : Finset String))))⟩ :=
  C10_all_inspect_fail (0, "c1") (fun _ => none) (fun _ => 0)
    (by decide) (fun _ _ => rfl)

/-- Claim C1: in every run that successfully built at least one host record
(the host_vars write list is non-empty), every group of the written inventory
has at least one member, whatever the random assignment stream did. -/
theorem C1_coverage_guarantee (ps : Int × String)
    (inspect : String → Option ContainerData) (rnd : Nat → Nat)
    (out : RunOutput) (inv : List (String × Finset String))
    (e : String) (s : Finset String)
    (hrun : generate_inventory ps inspect rnd = some out)
    (hhosts : out.hostVarsFiles ≠ [])
    (hinv : out.inventory = some inv)
    (hmem : (e, s) ∈ inv) :
    s.Nonempty := by
  unfold generate_inventory at hrun
  by_cases hids : get_container_ids ps = []
  · rw [if_pos hids] at hrun
    have hout : (⟨true, [], [], none⟩ : RunOutput) = out := Option.some.inj hrun
    rw [← hout] at hhosts
    exact absurd rfl hhosts
  · rw [if_neg hids] at hrun
    unfold runWithIds at hrun
    rcases hp : processContainers inspect (get_container_ids ps) with _ | infos
    · rw [hp] at hrun; exact Option.noConfusion hrun
    · rw [hp] at hrun
      have hout := Option.some.inj hrun
      rw [← hout] at hhosts hinv
      have hne : infos ≠ [] := hhosts
      have hX : environments.map
          (fun e => (e, buildAssignment (infos.map (fun p => p.1)) rnd e)) = inv :=
        Option.some.inj hinv
      rw [← hX, List.mem_map] at hmem
      obtain ⟨env, henv, heq⟩ := hmem
      obtain ⟨h1, h2⟩ := Prod.mk.inj heq
      subst h1
      rw [← h2]
      have hnames : infos.map (fun p => p.1) ≠ [] := by simpa using hne
      exact buildAssignment_covered _ rnd hnames env henv

theorem C1_coverage_witness :
    (buildAssignment ["app"] (fun _ => 0) "dev").Nonempty :=
  C1_coverage_guarantee (0, "c1") (fun _ => some ⟨some "app", none⟩) (fun _ => 0)
    ⟨false, [("app", ⟨"localhost", 22, "c1", "app"⟩)], environments,
      some (environments.map (fun e => (e, buildAssignment ["app"] (fun _ => 0) e)))⟩
    (environments.map (fun e => (e, buildAssignment ["app"] (fun _ => 0) e)))
    "dev" (buildAssignment ["app"] (fun _ => 0) "dev")
    rfl (by decide) rfl (by simp [environments])

/-- Claim C6: with 0 < N < 3 discovered records, every discovered host name
appears in at least one group, and with exactly one record that single host
belongs to all three groups. -/
theorem C6_few_hosts (names : List String) (rnd : Nat → Nat)
    (h1 : 0 < names.length) (h2 : names.length < 3) :
    (∀ n ∈ names, ∃ e ∈ environments, n ∈ buildAssignment names rnd e) ∧
    (∀ n, names = [n] → ∀ e ∈ environments, n ∈ buildAssignment names rnd e) := by
  rcases names with _ | ⟨n0, _ | ⟨n1, _ | ⟨n2, t⟩⟩⟩
  · exact absurd h1 (by simp)
  · constructor
    · intro n hn
      have hn0 : n = n0 := by simpa using hn
      subst hn0
      exact ⟨"production", by simp [environments], addTo_mem_self _ _ _⟩
    · intro n heq e he
      have hn0 : n0 = n := by simpa using heq
      subst hn0
      have he3 : e = "dev" ∨ e = "staging" ∨ e = "production" := by
        simpa [environments] using he
      rcases he3 with rfl | rfl | rfl
      · exact addTo_mem_mono _ _ (addTo_mem_mono _ _ (addTo_mem_self _ _ _))
      · exact addTo_mem_mono _ _ (addTo_mem_self _ _ _)
      · exact addTo_mem_self _ _ _
  · constructor
    · intro n hn
      have hn01 : n = n0 ∨ n = n1 := by simpa using hn
      rcases hn01 with rfl | rfl
      · exact ⟨"production", by simp [environments], addTo_mem_self _ _ _⟩
      · exact ⟨"staging", by simp [environments],
          addTo_mem_mono _ _ (addTo_mem_self _ _ _)⟩
    · intro n heq
      simp at heq
  · exfalso
    simp [List.length_cons] at h2
    omega

theorem C6_few_hosts_witness :
    "only-one" ∈ buildAssignment ["only-one"] (fun _ => 2) "staging" :=
  (C6_few_hosts ["only-one"] (fun _ => 2) (by decide) (by decide)).2
    "only-one" rfl "staging" (by simp [environments])

/-- Claim C7: with exactly three discovered records, each declared group gets
exactly the one host of matching discovery rank: dev the first, staging the
second, production the third, whatever the random stream is (it is unused). -/
theorem C7_exact_cover (n0 n1 n2 : String) (rnd : Nat → Nat) :
    buildAssignment [n0, n1, n2] rnd "dev" = {n0} ∧
    buildAssignment [n0, n1, n2] rnd "staging" = {n1} ∧
    buildAssignment [n0, n1, n2] rnd "production" = {n2} := by
  refine ⟨?_, ?_, ?_⟩ <;>
    simp [buildAssignment, addRandom, addTo, emptyAssign]

/-! ## Port-scan lemmas -/

lemma findSshPort_miss (k : String) (ms : Option (List PortMapping))
    (rest : List (String × Option (List PortMapping)))
    (h : scanHit (k, ms) = false) :
    findSshPort ((k, ms) :: rest) = findSshPort rest := by
  have h' : (pyStartsWith k "22" && mappingsTruthy ms) = false := h
  simp [findSshPort, h']

lemma findSshPort_hit (k : String) (ms : Option (List PortMapping))
    (rest : List (String × Option (List PortMapping)))
    (h : scanHit (k, ms) = true) :
    findSshPort ((k, ms) :: rest) = firstHostPort ms := by
  have h' : (pyStartsWith k "22" && mappingsTruthy ms) = true := h
  simp [findSshPort, h']

lemma findSshPort_none :
    ∀ ports : List (String × Option (List PortMapping)),
      (∀ p ∈ ports, scanHit p = false) → findSshPort ports = none := by
  intro ports
  induction ports with
  | nil => intro _; rfl
  | cons p t ih =>
    intro h
    rcases p with ⟨k, ms⟩
    rw [findSshPort_miss k ms t (h _ (List.mem_cons_self _ _))]
    exact ih (fun q hq => h q (List.mem_cons_of_mem _ hq))

/-- Claim C2 counterexample: a container whose only mapping key is
`"2222/tcp"` does not yield the default port 22. The scan selects that key
(`startswith("22")` is a string-prefix test, not a numeric comparison on the
part before the slash), so the emitted port is its first HostPort, 8080. -/
theorem C2_counterexample :
    extract_container_info
        ⟨some "c", some ⟨some "10.0.0.5", [("2222/tcp", some [⟨some "8080"⟩])]⟩⟩ =
      ("c", "10.0.0.5", some "8080") ∧
    resolvePort (some "8080") = some 8080 ∧ ¬ ((8080 : Int) = 22) := by
  decide

/-- Claim C2 amended: the extractor selects the first key of the ports table
that starts with the string `"22"` and has a truthy (non-None, non-empty)
mapping list, taking that key's first entry's HostPort; when no key qualifies
the scan yields nothing, which the caller turns into the default port 22. -/
theorem C2_port_scan_amended :
    (∀ (pre : List (String × Option (List PortMapping))) (k : String)
        (ms : Option (List PortMapping))
        (rest : List (String × Option (List PortMapping))),
        (∀ p ∈ pre, scanHit p = false) → scanHit (k, ms) = true →
        findSshPort (pre ++ (k, ms) :: rest) = firstHostPort ms) ∧
    (∀ ports, (∀ p ∈ ports, scanHit p = false) → findSshPort ports = none) := by
  constructor
  · intro pre
    induction pre with
    | nil =>
      intro k ms rest _ hk
      simpa using findSshPort_hit k ms rest hk
    | cons p t ih =>
      intro k ms rest hpre hk
      rcases p with ⟨k0, ms0⟩
      rw [List.cons_append, findSshPort_miss k0 ms0 _ (hpre _ (List.mem_cons_self _ _))]
      exact ih k ms rest (fun q hq => hpre q (List.mem_cons_of_mem _ hq)) hk
  · exact findSshPort_none

theorem C2_port_scan_witness :
    findSshPort [("80/tcp", some [⟨some "8080"⟩]), ("22/tcp", none),
        ("22/tcp", some [⟨some "2222"⟩]), ("443/tcp", some [⟨some "8443"⟩])] =
      some "2222" :=
  C2_port_scan_amended.1 [("80/tcp", some [⟨some "8080"⟩]), ("22/tcp", none)]
    "22/tcp" (some [⟨some "2222"⟩]) [("443/tcp", some [⟨some "8443"⟩])]
    (by decide) (by decide)

/-- Claim C3 counterexample: resolving a discovered host-port that is a
non-numeric string raises (`int("abc")` throws ValueError, modelled as `none`)
instead of falling back to 22. -/
theorem C3_counterexample :
    resolvePort (some "abc") = none ∧ ¬ resolvePort (some "abc") = some 22 := by
  decide

/-- Claim C3 amended: the serialized port is `int(port)` when the discovered
host-port string is present and non-empty (which raises on a non-numeric
string), and exactly 22 when the host-port is absent or empty; only the
absent/empty path is a never-raising fallback. -/
theorem C3_port_serialization_amended :
    resolvePort none = some 22 ∧ resolvePort (some "") = some 22 ∧
    (∀ s, s ≠ "" → resolvePort (some s) = pyInt s) := by
  refine ⟨rfl, rfl, ?_⟩
  intro s hs
  have ht : portTruthy (some s) = true := by simp [portTruthy, hs]
  simp [resolvePort, ht]

theorem C3_port_serialization_witness :
    resolvePort (some "2222") = pyInt "2222" :=
  C3_port_serialization_amended.2.2 "2222" (by decide)

/-- Claim C4 counterexample: a Name of `"//my-app"` is emitted as `"my-app"`
(`lstrip("/")` removes every leading slash), not as `"/my-app"` (all but the
first slash kept) as the claim requires. -/
theorem C4_counterexample :
    extract_container_info ⟨some "//my-app", none⟩ = ("my-app", "", none) ∧
    ¬ (("my-app" : String) = "/my-app") := by
  decide

lemma dropSlash_spec :
    ∀ l : List Char,
      ∃ k, l = List.replicate k '/' ++ l.dropWhile (fun c => c = '/') ∧
        ∀ c, (l.dropWhile (fun c => c = '/')).head? = some c → c ≠ '/' := by
  intro l
  induction l with
  | nil => exact ⟨0, rfl, by intro c hc; cases hc⟩
  | cons a t ih =>
    by_cases ha : a = '/'
    · subst ha
      obtain ⟨k, hk, hh⟩ := ih
      have hstep : (('/' :: t).dropWhile (fun c => c = '/')) =
          t.dropWhile (fun c => c = '/') := by
        simp [List.dropWhile_cons]
      refine ⟨k + 1, ?_, ?_⟩
      · rw [hstep, List.replicate_succ, List.cons_append]
        exact congrArg (fun l => '/' :: l) hk
      · rw [hstep]; exact hh
    · have hstep : ((a :: t).dropWhile (fun c => c = '/')) = a :: t := by
        simp [List.dropWhile_cons, ha]
      refine ⟨0, by rw [hstep]; rfl, ?_⟩
      rw [hstep]
      intro c hc
      have : c = a := by simpa using hc.symm
      subst this
      exact ha

/-- Claim C4 amended: the emitted name is the Name value with its entire
maximal run of leading slash characters removed, so the result never starts
with a slash. -/
theorem C4_name_normalization_amended (d : ContainerData) :
    ∃ k, (d.name.getD "").data =
        List.replicate k '/' ++ (extract_container_info d).1.data ∧
      ∀ c, (extract_container_info d).1.data.head? = some c → c ≠ '/' :=
  dropSlash_spec (d.name.getD "").data

/-- Claim C8: when the normalized name is empty (empty or absent Name field),
the emitted name is exactly the first 12 characters of the container id. -/
theorem C8_name_fallback (cid : String) (d : ContainerData)
    (h : (extract_container_info d).1 = "") :
    (resolveName cid (extract_container_info d).1).data = cid.data.take 12 := by
  rw [h]
  simp [resolveName, pySlice12]

theorem C8_name_fallback_witness :
    (resolveName "0123456789abcdef" (extract_container_info ⟨none, none⟩).1).data =
      ("0123456789abcdef" : String).data.take 12 :=
  C8_name_fallback "0123456789abcdef" ⟨none, none⟩ rfl

/-- Claim C9: the serialized connection address is the discovered address when
it is non-empty and the loopback placeholder `"localhost"` otherwise, and it is
never the empty string. -/
theorem C9_address_fallback (ip : String) :
    (ip ≠ "" → resolveHost ip = ip) ∧ (ip = "" → resolveHost ip = "localhost") ∧
    resolveHost ip ≠ "" := by
  refine ⟨?_, ?_, ?_⟩
  · intro h; simp [resolveHost, h]
  · intro h; simp [resolveHost, h]
  · by_cases h : ip = ""
    · rw [h]; decide
    · simp [resolveHost, h]

theorem C9_address_fallback_witness :
    resolveHost "10.88.0.2" = "10.88.0.2" ∧ resolveHost "" = "localhost" :=
  ⟨(C9_address_fallback "10.88.0.2").1 (by decide),
    (C9_address_fallback "").2.1 rfl⟩
